import Mathlib

/-!
Verification of the observer-builder / prefab subsystem of Flecs-Rust.

Shallow embedding of `src/flecs_ecs/src/core/observer_builder.rs` and of the
prefab/slot example `src/flecs_ecs/examples/prefab_typed.rs`.  Entity ids
(`ecs_entity_t`) are modelled as `Nat`, with `0` the null/absent handle, as in
the source.  Parts of the repository that the file under `src/` merely calls
into (the vendored flecs runtime behind `sys::`, `Observer::new`, the
component-id registry, the prefab instantiation logic) are modelled from the
specification; each such definition carries a doc comment starting with
`Modelled from the spec:`.
-/

/-- Modelled from the spec: the fixed capacity of the descriptor's trigger-event
sequence ("an ordered sequence of trigger EventIdentities (bounded count, ...
a systems-level limit, e.g. a small constant")).  The `sys` binding declares
`events: [ecs_entity_t; FLECS_EVENT_DESC_MAX]` with `FLECS_EVENT_DESC_MAX = 8`;
that declaration is not under `src/`. -/
def FLECS_EVENT_DESC_MAX : Nat := 8

/-- The query part of the observer descriptor (`sys::ecs_query_desc_t`).  Its
internals are opaque to `observer_builder.rs`, which only stores and hands it
on; we model it as an abstract payload. -/
structure ecs_query_desc_t where
  payload : Nat
deriving DecidableEq, Repr

/-- `sys::ecs_observer_desc_t`: the fields `observer_builder.rs` manipulates —
the observer entity, the query descriptor, the fixed-capacity event array and
the `yield_existing` flag — plus one abstract field standing for the remaining
callback/context fields, which the builder copies around untouched. -/
structure ecs_observer_desc_t where
  entity : Nat
  query : ecs_query_desc_t
  events : List Nat
  yield_existing : Bool
  callback_ctx : Nat
deriving DecidableEq, Repr

/-- The default (zeroed) observer descriptor: null entity, all event slots 0,
`yield_existing` false. -/
def ecs_observer_desc_t.default : ecs_observer_desc_t :=
  { entity := 0
    query := ⟨0⟩
    events := List.replicate FLECS_EVENT_DESC_MAX 0
    yield_existing := false
    callback_ctx := 0 }

/-- `TermBuilder` is opaque to `observer_builder.rs` (it is only stored and
handed to the `QueryConfig` impl); abstract payload. -/
structure TermBuilder where
  payload : Nat
deriving DecidableEq, Repr

/-- `ObserverBuilder` state, fields as in the Rust struct: the descriptor, the
term builder, the world reference (modelled as a world id), `event_count`
(an `i32` in the source, only ever incremented from 0, hence `Nat`) and
`is_instanced`. -/
structure ObserverBuilder where
  desc : ecs_observer_desc_t
  term_builder : TermBuilder
  world : Nat
  event_count : Nat
  is_instanced : Bool
deriving DecidableEq, Repr

/-- `ObserverBuilder::new`: zeroed descriptor and counters, then the observer
entity is initialised by `ecs_entity_init` (external runtime; its fresh nonzero
result is passed in as `fresh`).  `T::populate` for the empty static tuple adds
no terms. -/
def ObserverBuilder.new (world : Nat) (fresh : Nat) : ObserverBuilder :=
  { desc := { ecs_observer_desc_t.default with entity := fresh }
    term_builder := ⟨0⟩
    world := world
    event_count := 0
    is_instanced := false }

/-- `ObserverBuilder::new_from_desc` (lines 99–116): copy the caller's
descriptor wholesale; only when `desc.entity == 0` is a fresh entity obtained
from `ecs_entity_init` (passed in as `fresh`) and stored in its place.
`T::populate` for the empty static tuple adds no terms. -/
def ObserverBuilder.new_from_desc (world : Nat) (fresh : Nat)
    (desc : ecs_observer_desc_t) : ObserverBuilder :=
  let obj : ObserverBuilder :=
    { desc := desc
      term_builder := ⟨0⟩
      world := world
      event_count := 0
      is_instanced := false }
  if obj.desc.entity = 0 then
    { obj with desc := { obj.desc with entity := fresh } }
  else
    obj

/-- `ObserverBuilder::event_count`. -/
def ObserverBuilder.eventCount (b : ObserverBuilder) : Nat :=
  b.event_count

/-- `ObserverBuilder::add_event_id`: read the current count, increment it, then
write the event at the old index — `self.desc.events[event_count] = event`.
Rust's bounds-checked indexing panics when the index reaches the array length;
the panic is modelled as `none` (the construction fails; no out-of-bounds write
ever happens). -/
def ObserverBuilder.add_event_id (b : ObserverBuilder) (event : Nat) :
    Option ObserverBuilder :=
  let event_count := b.event_count
  if event_count < b.desc.events.length then
    some { b with
            event_count := event_count + 1
            desc := { b.desc with events := b.desc.events.set event_count event } }
  else
    none

/-- `ObserverBuilder::add_event::<E>`: same as `add_event_id` with the event id
obtained from the identity registry (`E::get_id(self.world())`). -/
def ObserverBuilder.add_event (b : ObserverBuilder) (id : Nat) :
    Option ObserverBuilder :=
  b.add_event_id id

/-- `ObserverBuilder::yield_existing`: sets the one descriptor flag and returns
the builder for chaining. -/
def ObserverBuilder.set_yield_existing (b : ObserverBuilder)
    (should_yield : Bool) : ObserverBuilder :=
  { b with desc := { b.desc with yield_existing := should_yield } }

/-- Descriptor-validation failures surfaced at build time (spec §7). -/
inductive DescriptorValidationError where
  | zeroEvents
deriving DecidableEq, Repr

/-- A live observer handle as returned by the runtime. -/
structure Observer where
  world : Nat
  desc : ecs_observer_desc_t
  is_instanced : Bool
deriving DecidableEq, Repr

/-- Modelled from the spec: `Observer::new` / `observer_init` are not under
`src/`.  "Transition to Built requires ≥1 event"; "building with zero events is
a hard construction error (not a silent no-op)", reported as a
`DescriptorValidationError`.  An event is present when its slot in the
descriptor's event array is a nonzero entity id. -/
def Observer.new (world : Nat) (desc : ecs_observer_desc_t)
    (is_instanced : Bool) : Except DescriptorValidationError Observer :=
  if desc.events.any (fun e => e ≠ 0) then
    Except.ok { world := world, desc := desc, is_instanced := is_instanced }
  else
    Except.error DescriptorValidationError.zeroEvents

/-- `Builder::build` for `ObserverBuilder` (lines 198–213): takes `&mut self`,
reads `self.desc` (a `Copy` struct) and submits it via `Observer::new`.  The
builder state itself is not modified or consumed; the pair returns the
(unchanged) builder alongside the submission result. -/
def ObserverBuilder.build (b : ObserverBuilder) :
    ObserverBuilder × Except DescriptorValidationError Observer :=
  (b, Observer.new b.world b.desc b.is_instanced)

/-- Fold a list of events through `add_event_id`, failing if any call fails. -/
def ObserverBuilder.addEvents (b : ObserverBuilder) :
    List Nat → Option ObserverBuilder
  | [] => some b
  | e :: es => (b.add_event_id e).bind (fun b' => b'.addEvents es)

/-- Claim C9: `ObserverBuilder::new_from_desc` preserves a caller-supplied
observer entity: the resulting builder's entity is the supplied one when it is
nonzero and the freshly initialised one only when it is zero, and every other
field of the supplied descriptor is carried over unchanged. -/
theorem new_from_desc_preserves_entity (world fresh : Nat)
    (desc : ecs_observer_desc_t) :
    (ObserverBuilder.new_from_desc world fresh desc).desc.entity
        = (if desc.entity = 0 then fresh else desc.entity)
      ∧ (ObserverBuilder.new_from_desc world fresh desc).desc.query = desc.query
      ∧ (ObserverBuilder.new_from_desc world fresh desc).desc.events = desc.events
      ∧ (ObserverBuilder.new_from_desc world fresh desc).desc.yield_existing
        = desc.yield_existing
      ∧ (ObserverBuilder.new_from_desc world fresh desc).desc.callback_ctx
        = desc.callback_ctx
      ∧ (ObserverBuilder.new_from_desc world fresh desc).world = world
      ∧ (ObserverBuilder.new_from_desc world fresh desc).event_count = 0 := by
  unfold ObserverBuilder.new_from_desc
  by_cases h : desc.entity = 0 <;> simp [h]

/-- Claim C10: `yield_existing` has no effect beyond its one flag: it sets
`desc.yield_existing` to the given boolean and leaves the event sequence,
`event_count`, the query descriptor, the entity, `is_instanced`, the term
builder and the world reference unchanged. -/
theorem yield_existing_frame (b : ObserverBuilder) (flag : Bool) :
    (b.set_yield_existing flag).desc.yield_existing = flag
      ∧ (b.set_yield_existing flag).desc.events = b.desc.events
      ∧ (b.set_yield_existing flag).desc.query = b.desc.query
      ∧ (b.set_yield_existing flag).desc.entity = b.desc.entity
      ∧ (b.set_yield_existing flag).desc.callback_ctx = b.desc.callback_ctx
      ∧ (b.set_yield_existing flag).event_count = b.event_count
      ∧ (b.set_yield_existing flag).eventCount = b.eventCount
      ∧ (b.set_yield_existing flag).is_instanced = b.is_instanced
      ∧ (b.set_yield_existing flag).term_builder = b.term_builder
      ∧ (b.set_yield_existing flag).world = b.world := by
  simp [ObserverBuilder.set_yield_existing, ObserverBuilder.eventCount]

/-- With `n < l.length`, setting index `n` and taking `n+1` elements yields the
old prefix followed by the new element. -/
theorem take_succ_set (l : List Nat) (n e : Nat) (h : n < l.length) :
    (l.set n e).take (n + 1) = l.take n ++ [e] := by
  rw [List.set_eq_take_cons_drop e h]
  have hlen : (l.take n).length = n := by
    simp [List.length_take, Nat.min_eq_left (Nat.le_of_lt h)]
  calc (l.take n ++ e :: l.drop (n + 1)).take (n + 1)
      = (l.take n ++ e :: l.drop (n + 1)).take ((l.take n).length + 1) := by rw [hlen]
    _ = l.take n ++ (e :: l.drop (n + 1)).take 1 := List.take_append 1
    _ = l.take n ++ [e] := by simp

/-- Closed form for running `addEvents` from any builder state with enough
event capacity left: all calls succeed, the count advances by the number of
events, and the new events land contiguously at the old count's position. -/
theorem addEvents_closed_form (es : List Nat) :
    ∀ b : ObserverBuilder, b.event_count + es.length ≤ b.desc.events.length →
    ∃ b', b.addEvents es = some b'
      ∧ b'.event_count = b.event_count + es.length
      ∧ b'.desc.events
          = b.desc.events.take b.event_count ++ es
              ++ b.desc.events.drop (b.event_count + es.length) := by
  induction es with
  | nil =>
    intro b _
    exact ⟨b, rfl, by simp, by simp [List.take_append_drop]⟩
  | cons e es ih =>
    intro b h
    have hn : b.event_count < b.desc.events.length := by
      simp only [List.length_cons] at h; omega
    have h1 : b.add_event_id e
        = some { b with
                  event_count := b.event_count + 1
                  desc := { b.desc with
                             events := b.desc.events.set b.event_count e } } := by
      simp [ObserverBuilder.add_event_id, hn]
    obtain ⟨b', hrun, hcount, hev⟩ :=
      ih { b with
            event_count := b.event_count + 1
            desc := { b.desc with events := b.desc.events.set b.event_count e } }
        (by simp only [List.length_set, List.length_cons] at h ⊢; omega)
    refine ⟨b', ?_, ?_, ?_⟩
    · simp [ObserverBuilder.addEvents, h1, hrun]
    · simp only [List.length_cons] at hcount ⊢; omega
    · rw [hev]
      simp only
      rw [take_succ_set _ _ _ hn,
          List.drop_set_of_lt _ _ (by omega : b.event_count < b.event_count + 1 + es.length)]
      have : b.event_count + (e :: es).length = b.event_count + 1 + es.length := by
        simp; omega
      rw [this]
      simp

/-- Claim C1: building an `ObserverBuilder` on which no event has been added is
a hard construction error (`DescriptorValidationError`), and building after
exactly one `add_event_id` call (with a nonzero event id) succeeds. -/
theorem observer_build_requires_one_event (world fresh e : Nat) (he : e ≠ 0) :
    ((ObserverBuilder.new world fresh).build).2
        = Except.error DescriptorValidationError.zeroEvents
  ∧ ∃ b1, (ObserverBuilder.new world fresh).add_event_id e = some b1
        ∧ Except.isOk b1.build.2 = true := by
  constructor
  · rfl
  · refine ⟨{ desc := { entity := fresh
                        query := ⟨0⟩
                        events := e :: [0, 0, 0, 0, 0, 0, 0]
                        yield_existing := false
                        callback_ctx := 0 }
              term_builder := ⟨0⟩
              world := world
              event_count := 1
              is_instanced := false }, rfl, ?_⟩
    simp [ObserverBuilder.build, Observer.new, he, Except.isOk, Except.toBool]

/-- Claim C1 witness: concrete instantiation at world 0, fresh entity 1 and
event id 1. -/
theorem observer_build_requires_one_event_witness :
    (1 : Nat) ≠ 0
  ∧ (((ObserverBuilder.new 0 1).build).2
        = Except.error DescriptorValidationError.zeroEvents
      ∧ ∃ b1, (ObserverBuilder.new 0 1).add_event_id 1 = some b1
            ∧ Except.isOk b1.build.2 = true) :=
  ⟨by decide, observer_build_requires_one_event 0 1 1 (by decide)⟩

/-- Claim C2: every `add_event_id` call on a descriptor whose event array has
the fixed capacity either records the event inside the array (count below the
maximum: the event is written at the old count, every other slot and the array
length are unchanged) or fails the construction (count at or above the maximum:
the bounds-checked write panics, modelled as `none`); it never writes outside
the array. -/
theorem add_event_within_capacity (b : ObserverBuilder) (e : Nat)
    (hlen : b.desc.events.length = FLECS_EVENT_DESC_MAX) :
    (b.event_count < FLECS_EVENT_DESC_MAX →
      ∃ b', b.add_event_id e = some b'
        ∧ b'.event_count = b.event_count + 1
        ∧ b'.desc.events.length = FLECS_EVENT_DESC_MAX
        ∧ b'.desc.events[b.event_count]? = some e
        ∧ ∀ i, i ≠ b.event_count → b'.desc.events[i]? = b.desc.events[i]?)
  ∧ (FLECS_EVENT_DESC_MAX ≤ b.event_count → b.add_event_id e = none) := by
  constructor
  · intro hlt
    have h' : b.event_count < b.desc.events.length := by omega
    refine ⟨{ b with
               event_count := b.event_count + 1
               desc := { b.desc with events := b.desc.events.set b.event_count e } },
            by simp [ObserverBuilder.add_event_id, h'], rfl, ?_, ?_, ?_⟩
    · simp [List.length_set, hlen]
    · exact List.getElem?_set_eq_of_lt e h'
    · intro i hi
      exact List.getElem?_set_ne (Ne.symm hi)
  · intro hge
    have h' : ¬ b.event_count < b.desc.events.length := by omega
    simp [ObserverBuilder.add_event_id, h']

/-- Claim C2 witness: the fresh builder has the full-capacity event array and
the in-bounds branch applies at event id 5. -/
theorem add_event_within_capacity_witness :
    (ObserverBuilder.new 0 1).desc.events.length = FLECS_EVENT_DESC_MAX
  ∧ ∃ b', (ObserverBuilder.new 0 1).add_event_id 5 = some b'
        ∧ b'.event_count = 1 := by
  refine ⟨by decide, ?_⟩
  obtain ⟨b', h1, h2, -⟩ :=
    (add_event_within_capacity (ObserverBuilder.new 0 1) 5 (by decide)).1
      (by decide)
  exact ⟨b', h1, by simpa using h2⟩

/-- A concrete builder holding one event: the fresh builder after one
`add_event_id` call with event id 7. -/
def afterOneEvent : ObserverBuilder :=
  ((ObserverBuilder.new 0 1).add_event_id 7).getD (ObserverBuilder.new 0 1)

/-- Claim C3 counterexample: on a concrete builder holding one event, build
succeeds, yet a subsequent `add_event_id` on the same builder is acted on
rather than rejected (it returns a changed state whose event count is 2), and
a second `build` on the same builder succeeds as well — the builder is not
single-use. -/
theorem builder_single_use_counterexample :
    Except.isOk afterOneEvent.build.2 = true
  ∧ (afterOneEvent.build.1.add_event_id 9).map ObserverBuilder.eventCount = some 2
  ∧ afterOneEvent.build.1.add_event_id 9 ≠ some afterOneEvent.build.1
  ∧ Except.isOk afterOneEvent.build.1.build.2 = true := by decide

/-- Claim C3 (amended): `build` borrows the builder mutably and leaves its
state unchanged, so the builder stays usable after a build: subsequent
mutating calls (`add_event_id`, `yield_existing`) act exactly as they would
have before the build, and a second `build` resubmits the current
descriptor. -/
theorem build_leaves_builder_usable (b : ObserverBuilder) (e : Nat)
    (flag : Bool) :
    b.build.1 = b
  ∧ b.build.1.add_event_id e = b.add_event_id e
  ∧ b.build.1.set_yield_existing flag = b.set_yield_existing flag
  ∧ b.build.1.build = b.build :=
  ⟨rfl, rfl, rfl, rfl⟩

/-- Claim C4: trigger events are kept as an ordered sequence in call order:
starting from a fresh builder, `k` successive `add_event_id` calls with events
`e1..ek` (`k` within the capacity bound) all succeed, the descriptor's event
array then holds `e1..ek` at positions `0..k-1` exactly, and `event_count()`
returns `k`. -/
theorem events_kept_in_call_order (world fresh : Nat) (es : List Nat)
    (h : es.length ≤ FLECS_EVENT_DESC_MAX) :
    ∃ b', (ObserverBuilder.new world fresh).addEvents es = some b'
      ∧ b'.eventCount = es.length
      ∧ b'.desc.events.take es.length = es := by
  obtain ⟨b', hrun, hcount, hev⟩ :=
    addEvents_closed_form es (ObserverBuilder.new world fresh)
      (by simpa [ObserverBuilder.new, ecs_observer_desc_t.default] using h)
  refine ⟨b', hrun, ?_, ?_⟩
  · simpa [ObserverBuilder.eventCount, ObserverBuilder.new] using hcount
  · rw [hev]
    simp [ObserverBuilder.new, List.take_left]

/-- Claim C4 witness: two events 3, 4 added to the fresh builder land at
positions 0 and 1 with `event_count` 2. -/
theorem events_kept_in_call_order_witness :
    ([3, 4] : List Nat).length ≤ FLECS_EVENT_DESC_MAX
  ∧ ∃ b', (ObserverBuilder.new 0 1).addEvents [3, 4] = some b'
      ∧ b'.eventCount = ([3, 4] : List Nat).length
      ∧ b'.desc.events.take ([3, 4] : List Nat).length = [3, 4] :=
  ⟨by decide, events_kept_in_call_order 0 1 [3, 4] (by decide)⟩

/-- A callback invocation delivered to an observer: an invocation of the
initial yield-existing pass (carrying the matched pre-existing entity) or a
live event delivery. -/
inductive CallbackInvocation where
  | yieldCall (entity : Nat)
  | liveCall (event : Nat)
deriving DecidableEq, Repr

/-- Modelled from the spec: the storage runtime's dispatch for a freshly built
observer (`observer_init` and event dispatch live in the vendored flecs
runtime, not under `src/`).  The runtime works off the pending yield pass one
entity at a time, in entity-iteration order, and only once that pass is
exhausted does it deliver the live events queued after `build()` returned. -/
def dispatchLoop : List Nat → List Nat → List CallbackInvocation
  | e :: ys, live => CallbackInvocation.yieldCall e :: dispatchLoop ys live
  | [], l :: ls => CallbackInvocation.liveCall l :: dispatchLoop [] ls
  | [], [] => []

/-- Modelled from the spec: on build, if `yield_existing` is true the runtime
immediately runs the observer's callback for every currently-existing matching
entity (the `existing` list, in enumeration order) before the live events
(`live`) triggered after `build()` returns; with the flag false the yield pass
is skipped. -/
def observerRun (existing live : List Nat) (shouldYield : Bool) :
    List CallbackInvocation :=
  dispatchLoop (if shouldYield then existing else []) live

/-- The dispatch loop delivers the whole yield pass, in order, then the live
events, in order. -/
theorem dispatchLoop_eq_append (existing live : List Nat) :
    dispatchLoop existing live
      = existing.map CallbackInvocation.yieldCall
          ++ live.map CallbackInvocation.liveCall := by
  induction existing with
  | nil =>
    induction live with
    | nil => simp [dispatchLoop]
    | cons l ls ihl => simp [dispatchLoop, ihl]
  | cons e ys ih => simp [dispatchLoop, ih]

/-- Claim C5: an observer built with `yield_existing(true)` against a world
already holding `N` matching entities invokes its callback once for each of
the `N` existing entities, in the stable enumeration order, and this yield
pass completes before any live event triggered after `build()` returns is
delivered: the first `N` invocations are exactly the yield calls for
`existing` in order, everything after them is the live deliveries in order,
and each entity receives as many yield calls as it occurs in `existing`. -/
theorem yield_existing_runs_before_live (existing live : List Nat) :
    observerRun existing live true
        = existing.map CallbackInvocation.yieldCall
            ++ live.map CallbackInvocation.liveCall
  ∧ (observerRun existing live true).take existing.length
        = existing.map CallbackInvocation.yieldCall
  ∧ (observerRun existing live true).drop existing.length
        = live.map CallbackInvocation.liveCall
  ∧ ∀ e, (observerRun existing live true).count (CallbackInvocation.yieldCall e)
        = existing.count e := by
  have hrun : observerRun existing live true
      = existing.map CallbackInvocation.yieldCall
          ++ live.map CallbackInvocation.liveCall := by
    simpa [observerRun] using dispatchLoop_eq_append existing live
  have hinj : Function.Injective CallbackInvocation.yieldCall := by
    intro a b hab
    cases hab
    rfl
  refine ⟨hrun, ?_, ?_, ?_⟩
  · rw [hrun]
    have : existing.length = (existing.map CallbackInvocation.yieldCall).length := by
      simp
    rw [this, List.take_left]
  · rw [hrun]
    have : existing.length = (existing.map CallbackInvocation.yieldCall).length := by
      simp
    rw [this, List.drop_left]
  · intro e
    rw [hrun, List.count_append]
    have h1 : (existing.map CallbackInvocation.yieldCall).count
        (CallbackInvocation.yieldCall e) = existing.count e :=
      List.count_map_of_injective existing CallbackInvocation.yieldCall hinj e
    have h2 : (live.map CallbackInvocation.liveCall).count
        (CallbackInvocation.yieldCall e) = 0 := by
      rw [List.count_eq_zero]
      intro hmem
      obtain ⟨x, -, hx⟩ := List.mem_map.mp hmem
      exact absurd hx (by simp)
    simp [h1, h2]

/-- Modelled from the spec: the Identity Registry (`E::get_id` /
`component_registration` is repository code not under `src/`).  Registration
state: the next fresh runtime identity to allocate and the table mapping a
(world id, static-type key) pair to its cached identity. -/
structure IdentityRegistry where
  nextId : Nat
  table : List ((Nat × Nat) × Nat)
deriving DecidableEq, Repr

/-- Look up the cached identity for a (world, static-type key) pair. -/
def lookupId : List ((Nat × Nat) × Nat) → Nat → Nat → Option Nat
  | [], _, _ => none
  | (⟨w', t'⟩, id) :: rest, w, t =>
    if w' = w ∧ t' = t then some id else lookupId rest w t

/-- Modelled from the spec: `identity_of<T>(w)` — the first call for a given
static type within a given World allocates a fresh RuntimeIdentity and records
it; subsequent calls for the same type and World return the cached identity
and leave the registry unchanged. -/
def identity_of (w t : Nat) (s : IdentityRegistry) : Nat × IdentityRegistry :=
  match lookupId s.table w t with
  | some id => (id, s)
  | none => (s.nextId, ⟨s.nextId + 1, ((w, t), s.nextId) :: s.table⟩)

/-- Registry well-formedness: every cached identity is below the allocation
cursor, and no identity is cached for two different (world, type) keys. -/
def IdentityRegistry.Wf (s : IdentityRegistry) : Prop :=
  (∀ e ∈ s.table, e.2 < s.nextId) ∧ (s.table.map Prod.snd).Nodup

/-- A successful lookup comes from a table entry with exactly that key. -/
theorem lookupId_mem {l : List ((Nat × Nat) × Nat)} {w t id : Nat}
    (h : lookupId l w t = some id) : ((w, t), id) ∈ l := by
  induction l with
  | nil => simp [lookupId] at h
  | cons hd rest ih =>
    obtain ⟨⟨w', t'⟩, id'⟩ := hd
    by_cases hk : w' = w ∧ t' = t
    · simp [lookupId, hk] at h
      subst h
      simp [hk.1, hk.2]
    · simp [lookupId, hk] at h
      exact List.mem_cons_of_mem _ (ih h)

/-- Claim C6: identity lookup is idempotent per (World, static type): the
second call returns the same RuntimeIdentity and leaves the registry exactly
as the first call left it, the first call having registered the identity in
the cache; and for two distinct Worlds the identities are not shared — looking
the same static type up in a different world never yields the first world's
identity. -/
theorem identity_of_idempotent_and_isolated (s : IdentityRegistry)
    (w1 w2 t : Nat) (hwf : s.Wf) (hne : w1 ≠ w2) :
    identity_of w1 t ((identity_of w1 t s).2)
        = ((identity_of w1 t s).1, (identity_of w1 t s).2)
  ∧ lookupId ((identity_of w1 t s).2).table w1 t = some (identity_of w1 t s).1
  ∧ (identity_of w1 t s).1 ≠ (identity_of w2 t ((identity_of w1 t s).2)).1 := by
  obtain ⟨hbound, hnodup⟩ := hwf
  rcases h1 : lookupId s.table w1 t with _ | id1
  · -- first call allocates s.nextId and caches it at the head
    have hs1 : (identity_of w1 t s).2
        = ⟨s.nextId + 1, ((w1, t), s.nextId) :: s.table⟩ := by
      simp [identity_of, h1]
    have hv1 : (identity_of w1 t s).1 = s.nextId := by
      simp [identity_of, h1]
    have hcache : lookupId (((w1, t), s.nextId) :: s.table) w1 t
        = some s.nextId := by
      simp [lookupId]
    refine ⟨?_, ?_, ?_⟩
    · rw [hs1, hv1]
      simp [identity_of, hcache]
    · rw [hs1, hv1]
      exact hcache
    · rw [hs1, hv1]
      have hskip : lookupId (((w1, t), s.nextId) :: s.table) w2 t
          = lookupId s.table w2 t := by
        simp [lookupId, fun h : w1 = w2 => hne h]
      rcases h2 : lookupId s.table w2 t with _ | id2
      · simp [identity_of, hskip, h2]
      · have : id2 < s.nextId := hbound _ (lookupId_mem h2)
        simp [identity_of, hskip, h2]
        omega
  · -- first call hits the cache: the registry is unchanged
    have hs1 : (identity_of w1 t s).2 = s := by simp [identity_of, h1]
    have hv1 : (identity_of w1 t s).1 = id1 := by simp [identity_of, h1]
    refine ⟨?_, ?_, ?_⟩
    · rw [hs1, hv1]
      simp [identity_of, h1]
    · rw [hs1, hv1]
      exact h1
    · rw [hs1, hv1]
      rcases h2 : lookupId s.table w2 t with _ | id2
      · have : id1 < s.nextId := hbound _ (lookupId_mem h1)
        simp [identity_of, h1, h2]
        omega
      · simp [identity_of, h1, h2]
        intro heq
        subst heq
        have hmem1 := lookupId_mem h1
        have hmem2 := lookupId_mem h2
        have := List.inj_on_of_nodup_map hnodup hmem1 hmem2 rfl
        exact hne (congrArg (fun p => p.1.1) this)

/-- Claim C6 witness: concrete registry with allocation cursor 1 and empty
table, worlds 1 and 2, static-type key 5. -/
theorem identity_of_idempotent_and_isolated_witness :
    IdentityRegistry.Wf ⟨1, []⟩
  ∧ (1 : Nat) ≠ 2
  ∧ (identity_of 1 5 ((identity_of 1 5 ⟨1, []⟩).2)
        = ((identity_of 1 5 ⟨1, []⟩).1, (identity_of 1 5 ⟨1, []⟩).2)
    ∧ lookupId ((identity_of 1 5 ⟨1, []⟩).2).table 1 5
        = some (identity_of 1 5 ⟨1, []⟩).1
    ∧ (identity_of 1 5 ⟨1, []⟩).1 ≠ (identity_of 2 5 ((identity_of 1 5 ⟨1, []⟩).2)).1) :=
  ⟨⟨by simp, by simp⟩, by decide,
    identity_of_idempotent_and_isolated ⟨1, []⟩ 1 2 5 ⟨by simp, by simp⟩ (by decide)⟩

/-- A prefab-type declaration, mirroring the chained registration calls of
`examples/prefab_typed.rs`: the type's name (prefabs assume the name of the
type), its is-a targets, and the type it is declared a slot of, if any.
`child_of` contributes only to template paths; the instance-level slot paths
are rooted at the instance name. -/
structure PrefabDecl where
  name : String
  is_a : List String
  slotTarget : Option String
deriving DecidableEq, Repr

/-- Modelled from the spec: the inheritance chain of a template — the template
itself plus everything reachable through is-a edges (fuel-bounded by the
number of declarations, enough for any acyclic declaration list). -/
def isaChain (decls : List PrefabDecl) : Nat → String → List String
  | 0, t => [t]
  | fuel + 1, t =>
    t :: (decls.filter (fun d => d.name = t)).flatMap
      (fun d => d.is_a.flatMap (fun p => isaChain decls fuel p))

/-- The per-instance record of one slot child created at instantiation. -/
structure SlotInstance where
  slotType : String
  handle : Nat
  path : String
deriving DecidableEq, Repr

/-- A live entity instance with its per-instance slot mapping. -/
structure EntityInstance where
  handle : Nat
  name : String
  slots : List SlotInstance
deriving DecidableEq, Repr

/-- Modelled from the spec: instantiating an entity that is-a a template makes
the storage runtime create a fresh child entity for every slot declared
anywhere in the template's inheritance chain and record a per-instance mapping
from slot type to the fresh child's handle; each child's hierarchical path
reads `::instanceName::SlotTypeName`.  Child handles are allocated
consecutively after the instance handle, so they are valid (nonzero) and
pairwise distinct. -/
def instantiate (decls : List PrefabDecl) (instName target : String)
    (instHandle : Nat) : EntityInstance :=
  let chain := isaChain decls decls.length target
  let slotDecls := decls.filter (fun d =>
    match d.slotTarget with
    | some p => chain.contains p
    | none => false)
  { handle := instHandle
    name := instName
    slots := slotDecls.enum.map (fun pair =>
      { slotType := pair.2.name
        handle := instHandle + pair.1 + 1
        path := "::" ++ instName ++ "::" ++ pair.2.name }) }

/-- Modelled from the spec: `resolve_slot<StaticType>(instance, edge_index)`
(`get_target_from_component` in the example) looks up the instance-specific
child created for the slot matching the type; it returns the null handle `0`
(an absent handle, not a crash) when the instance was not derived from a
hierarchy declaring that slot or when `edge_index` exceeds the number of
matching edges. -/
def get_target_from_component (inst : EntityInstance) (slotType : String)
    (edge_index : Nat) : Nat :=
  match (inst.slots.filter (fun s => s.slotType = slotType))[edge_index]? with
  | some s => s.handle
  | none => 0

/-- Modelled from the spec: `get_hierarchy_path` for a slot child of an
instance, looked up by handle in the instance's slot records. -/
def get_hierarchy_path (inst : EntityInstance) (handle : Nat) : Option String :=
  match inst.slots.filter (fun s => s.handle = handle) with
  | s :: _ => some s.path
  | [] => none

/-- The prefab declarations of `examples/prefab_typed.rs`: `Turret` (root),
`Base` and `Head` as slots of `Turret` (and children of it), `Railgun` is-a
`Turret`, and `Beam` as a slot (and child) of `Railgun`. -/
def prefabTypedDecls : List PrefabDecl :=
  [ { name := "Turret", is_a := [], slotTarget := none }
  , { name := "Base", is_a := [], slotTarget := some "Turret" }
  , { name := "Head", is_a := [], slotTarget := some "Turret" }
  , { name := "Railgun", is_a := ["Turret"], slotTarget := none }
  , { name := "Beam", is_a := [], slotTarget := some "Railgun" } ]

/-- The entity named `my_railgun` instantiated as is-a `Railgun` (instance
handle 100). -/
def myRailgun : EntityInstance :=
  instantiate prefabTypedDecls "my_railgun" "Railgun" 100

/-- Claim C7: with `Turret` (root), `Base` and `Head` slots of `Turret`,
`Railgun` is-a `Turret`, and `Beam` a slot of `Railgun`, instantiating
`my_railgun` as is-a `Railgun` yields resolvable slots for `Base`, `Head` and
`Beam`: three valid (nonzero), pairwise distinct entity handles whose
hierarchical paths are `::my_railgun::Base`, `::my_railgun::Head` and
`::my_railgun::Beam`. -/
theorem slot_resolution_end_to_end :
    get_target_from_component myRailgun "Base" 0 ≠ 0
  ∧ get_target_from_component myRailgun "Head" 0 ≠ 0
  ∧ get_target_from_component myRailgun "Beam" 0 ≠ 0
  ∧ get_target_from_component myRailgun "Base" 0
      ≠ get_target_from_component myRailgun "Head" 0
  ∧ get_target_from_component myRailgun "Base" 0
      ≠ get_target_from_component myRailgun "Beam" 0
  ∧ get_target_from_component myRailgun "Head" 0
      ≠ get_target_from_component myRailgun "Beam" 0
  ∧ get_hierarchy_path myRailgun (get_target_from_component myRailgun "Base" 0)
      = some ("::my_railgun::Base")
  ∧ get_hierarchy_path myRailgun (get_target_from_component myRailgun "Head" 0)
      = some ("::my_railgun::Head")
  ∧ get_hierarchy_path myRailgun (get_target_from_component myRailgun "Beam" 0)
      = some ("::my_railgun::Beam") := by decide

/-- Claim C8: resolving a slot that does not exist on a given instance is not
an error or a crash: whenever the instance carries no slot record matching the
requested type (it was not derived from a hierarchy declaring that slot), or
`edge_index` is at least the number of matching edges, `resolve_slot` /
`get_target_from_component` returns the absent/null handle `0`. -/
theorem slot_resolution_miss (inst : EntityInstance) (slotType : String)
    (edge_index : Nat)
    (h : (∀ s ∈ inst.slots, s.slotType ≠ slotType)
        ∨ (inst.slots.filter (fun s => s.slotType = slotType)).length
            ≤ edge_index) :
    get_target_from_component inst slotType edge_index = 0 := by
  rcases h with h | h
  · have hnil : inst.slots.filter (fun s => s.slotType = slotType) = [] := by
      rw [List.filter_eq_nil_iff]
      intro s hs
      simpa using h s hs
    simp [get_target_from_component, hnil]
  · simp [get_target_from_component, List.getElem?_eq_none h]

/-- Claim C8 witness: `my_railgun` has no slot of type `Gun`, and asking for a
second `Base` edge also resolves to the absent handle. -/
theorem slot_resolution_miss_witness :
    ((∀ s ∈ myRailgun.slots, s.slotType ≠ "Gun")
        ∨ (myRailgun.slots.filter (fun s => s.slotType = "Gun")).length ≤ 0)
  ∧ get_target_from_component myRailgun "Gun" 0 = 0
  ∧ get_target_from_component myRailgun "Base" 1 = 0 :=
  ⟨Or.inl (by decide), slot_resolution_miss myRailgun "Gun" 0 (Or.inl (by decide)),
    slot_resolution_miss myRailgun "Base" 1 (Or.inr (by decide))⟩
